import Mathlib

/-!
# Verification of the NasServer AI knowledge agent query pipeline

Shallow embedding of the query-routing core of the repository:

* `src/infrastructure/ai_knowledge_agent/src/intent_classifier.py`
  (`classify_intent`, `_heuristic_classify`, `_parse_llama_json`, `LIMIT_MAP`),
* `src/infrastructure/ai_knowledge_agent/src/services/rag_service.py`
  (`RAGService.unified_query`, `get_llama_response`, `_parse_llama_response`,
  `process_redis_job`),
* `src/infrastructure/ai_knowledge_agent/src/database.py` (`search_similar`).

Network calls (Ollama embedding / classification / generation, Redis) are
modelled as explicit oracle parameters: `Option String` for a model reply
(`none` = the HTTP call raised / timed out, `some raw` = the raw response
text), a list of store rows for the vector store, and Booleans for the
success of Redis status writes.

Python strings are modelled as `List Char` (code points, which is also what
Python indexes and slices by).  `str.strip`, `str.lower`, `str.split`,
substring containment and the concrete regular expressions used by the code
are translated directly.  ASCII case mapping is used (the German keyword
literals are compared verbatim); Python's Unicode `\w` is approximated by
ASCII alphanumerics, `_`, and the German letters that occur in the data.
-/

namespace NasAgent

/-! ## Python string primitives -/

/-- Python `str.strip` whitespace set (also the class matched by `\s`). -/
def isPySpace (c : Char) : Bool :=
  c.toNat = 32 || c.toNat = 9 || c.toNat = 10 || c.toNat = 13 ||
  c.toNat = 11 || c.toNat = 12

/-- ASCII lower-casing of one character (Python `str.lower`, ASCII part). -/
def lowerChar (c : Char) : Char :=
  if 65 ≤ c.toNat ∧ c.toNat ≤ 90 then Char.ofNat (c.toNat + 32) else c

/-- ASCII upper-casing of one character (Python `str.upper`, ASCII part). -/
def upperChar (c : Char) : Char :=
  if 97 ≤ c.toNat ∧ c.toNat ≤ 122 then Char.ofNat (c.toNat - 32) else c

/-- Python `str.lstrip()`. -/
def lstrip (l : List Char) : List Char := l.dropWhile isPySpace

/-- Python `str.rstrip()`. -/
def rstrip (l : List Char) : List Char := (l.reverse.dropWhile isPySpace).reverse

/-- Python `str.strip()`. -/
def pyStrip (l : List Char) : List Char := rstrip (lstrip l)

/-- `s.endswith(c)` for a single character `c`. -/
def listEndsWith (l : List Char) (c : Char) : Bool :=
  match l.getLast? with
  | some d => d == c
  | none => false

/-- Python `\w` (word character), restricted to ASCII plus the German
letters appearing in the repository's keyword lists. -/
def isWordChar (c : Char) : Bool :=
  c.isAlphanum || c == '_' || c == 'ä' || c == 'ö' || c == 'ü' || c == 'ß' ||
  c == 'Ä' || c == 'Ö' || c == 'Ü'

/-- ASCII digit. -/
def isDigitChar (c : Char) : Bool := 48 ≤ c.toNat && c.toNat ≤ 57

/-- `re.search("^word\b", l)`: `l` starts with `w` followed by a word
boundary (all keywords used end in a word character, so the boundary is
"next character is not a word character, or end of string"). -/
def startsWithWord (w : String) (l : List Char) : Bool :=
  w.data.isPrefixOf l &&
    (match l.drop w.data.length with
     | [] => true
     | c :: _ => !(isWordChar c))

/-- Substring containment (Python `in` on strings). -/
def hasInfix (pat : List Char) : List Char → Bool
  | [] => pat.isEmpty
  | c :: rest => pat.isPrefixOf (c :: rest) || hasInfix pat rest

/-- Suffix of the input after the first occurrence of `pat`
(`s.split(pat)[1:]` joined back, head position). -/
def afterFirst (pat : List Char) : List Char → Option (List Char)
  | [] => if pat.isEmpty then some [] else none
  | c :: rest =>
    if pat.isPrefixOf (c :: rest) then some ((c :: rest).drop pat.length)
    else afterFirst pat rest

/-- Prefix of the input before the first occurrence of `pat`
(`s.split(pat)[0]`; the whole input when `pat` does not occur). -/
def upToFirst (pat : List Char) : List Char → List Char
  | [] => []
  | c :: rest =>
    if pat.isPrefixOf (c :: rest) then [] else c :: upToFirst pat rest

/-- `s.replace(".txt", "")`: delete every (non-overlapping, left-to-right)
occurrence of `.txt`. -/
def removeTxt : List Char → List Char
  | '.' :: 't' :: 'x' :: 't' :: rest => removeTxt rest
  | c :: rest => c :: removeTxt rest
  | [] => []

/-- Helper for `len(s.split())`: counts maximal runs of non-whitespace. -/
def wordCountAux : List Char → Bool → Nat
  | [], _ => 0
  | c :: rest, inWord =>
    if isPySpace c then wordCountAux rest false
    else (if inWord then 0 else 1) + wordCountAux rest true

/-- `len(s.split())`. -/
def wordCount (l : List Char) : Nat := wordCountAux l false

/-! ## A small JSON value type and `json.loads` for the extracted segment

`_parse_llama_json` feeds `json.loads` only with the match of the regular
expression `\{[^{}]*\}`, i.e. a brace-delimited segment with no brace inside,
so the parsed document is always a flat object; values can be strings,
numbers, booleans, `null` or (nested) arrays, but never objects.  `\uXXXX`
string escapes and exponent number suffixes are not modelled. -/

inductive Json where
  | jnull : Json
  | jbool (b : Bool) : Json
  | jnum (q : ℚ) : Json
  | jstr (s : String) : Json
  | jarr (xs : List Json) : Json

/-- JSON inter-token whitespace. -/
def jsonWs (c : Char) : Bool := c == ' ' || c == '\t' || c == '\n' || c == '\r'

def skipWs (l : List Char) : List Char := l.dropWhile jsonWs

/-- The single-character string escapes accepted by `json.loads`, as an
association list from escape letter to decoded character. -/
def escPairs : List (Char × Char) :=
  [('"', '"'), ('\\', '\\'), ('/', '/'), ('n', '\n'), ('t', '\t'),
   ('r', '\r'), ('b', Char.ofNat 8), ('f', Char.ofNat 12)]

def escChar (e : Char) : Option Char := escPairs.lookup e

/-- Body of a JSON string after the opening quote; returns the decoded
characters and the rest after the closing quote. -/
def strBody : List Char → Option (List Char × List Char)
  | [] => none
  | c :: rest =>
    if c = '"' then some ([], rest)
    else if c = '\\' then
      match rest with
      | [] => none
      | e :: rest2 =>
        match escChar e, strBody rest2 with
        | some d, some p => some (d :: p.1, p.2)
        | _, _ => none
    else (strBody rest).map (fun p => (c :: p.1, p.2))

def digitsToNat (l : List Char) : Nat :=
  l.foldl (fun a c => a * 10 + (c.toNat - 48)) 0

def takeDigits (l : List Char) : List Char × List Char := l.span isDigitChar

/-- JSON number (optional minus, digits, optional fraction). -/
def parseNum (l : List Char) : Option (Json × List Char) :=
  let neg := l.head? == some '-'
  let ip := takeDigits (if neg then l.drop 1 else l)
  if ip.1.isEmpty then none
  else
    let whole : ℚ := (digitsToNat ip.1 : ℚ)
    match ip.2 with
    | '.' :: r2 =>
      let fp := takeDigits r2
      if fp.1.isEmpty then none
      else
        let v : ℚ := whole + (digitsToNat fp.1 : ℚ) / ((10 : ℚ) ^ fp.1.length)
        some (.jnum (if neg then -v else v), fp.2)
    | rest => some (.jnum (if neg then -whole else whole), rest)

/-- Consume the literal word `w` at the head of the input, if present. -/
def dropKeyword (w : String) (l : List Char) : Option (List Char) :=
  if w.data.isPrefixOf l then some (l.drop w.data.length) else none

mutual

/-- JSON value (no object case: the extracted segment contains no braces). -/
def parseValue : Nat → List Char → Option (Json × List Char)
  | 0, _ => none
  | Nat.succ fuel, l =>
    let l1 := skipWs l
    match dropKeyword "true" l1 with
    | some r => some (.jbool true, r)
    | none =>
      match dropKeyword "false" l1 with
      | some r => some (.jbool false, r)
      | none =>
        match dropKeyword "null" l1 with
        | some r => some (.jnull, r)
        | none =>
          match l1 with
          | '"' :: r => (strBody r).map (fun p => (.jstr (String.mk p.1), p.2))
          | '[' :: r =>
            (match skipWs r with
             | ']' :: r2 => some (.jarr [], r2)
             | r2 => (parseItems fuel r2).map (fun p => (.jarr p.1, p.2)))
          | l2 => parseNum l2

/-- Comma-separated array items up to the closing bracket. -/
def parseItems : Nat → List Char → Option (List Json × List Char)
  | 0, _ => none
  | Nat.succ fuel, l =>
    match parseValue fuel l with
    | none => none
    | some (v, r) =>
      match skipWs r with
      | ',' :: r2 => (parseItems fuel (skipWs r2)).map (fun p => (v :: p.1, p.2))
      | ']' :: r2 => some ([v], r2)
      | _ => none

end

/-- Members of the top-level object up to the closing brace; returns the
key/value pairs and the rest after `}`. -/
def parseMembers : Nat → List Char → Option (List (String × Json) × List Char)
  | 0, _ => none
  | Nat.succ fuel, l =>
    match skipWs l with
    | '"' :: r =>
      match strBody r with
      | none => none
      | some (k, r1) =>
        match skipWs r1 with
        | ':' :: r2 =>
          match parseValue (r2.length + 1) (skipWs r2) with
          | none => none
          | some (v, r3) =>
            match skipWs r3 with
            | ',' :: r4 => (parseMembers fuel r4).map (fun p => ((String.mk k, v) :: p.1, p.2))
            | '}' :: r4 => some ([(String.mk k, v)], r4)
            | _ => none
        | _ => none
    | _ => none

/-- `json.loads` on the extracted segment: a single top-level object, the
whole input consumed.  Returns the key/value pairs in textual order. -/
def jsonLoads (l : List Char) : Option (List (String × Json)) :=
  match skipWs l with
  | '{' :: r =>
    (match skipWs r with
     | '}' :: rest => if (skipWs rest).isEmpty then some [] else none
     | _ =>
       match parseMembers (r.length + 1) r with
       | some (ms, rest) => if (skipWs rest).isEmpty then some ms else none
       | none => none)
  | _ => none

/-- Python `dict` lookup on the parsed members (duplicate keys: last wins,
as in `json.loads`). -/
def jget (obj : List (String × Json)) (k : String) : Option Json :=
  (obj.reverse.find? (fun p => p.1 == k)).map (fun p => p.2)

/-- Python truthiness of a JSON value (`if parsed.get("refined_query"):`). -/
def jtruthy : Json → Bool
  | .jnull => false
  | .jbool b => b
  | .jnum q => !(q == 0)
  | .jstr s => !(s == "")
  | .jarr xs => !xs.isEmpty

/-- `re.search(r'\{[^{}]*\}', raw)`: the first brace-delimited segment of
the input that contains no brace between its delimiters.  At a position
holding `{`, the regex matches exactly when the next brace character after
it is `}`; otherwise the scan continues at the next position. -/
def firstBraceless : List Char → Option (List Char)
  | [] => none
  | '{' :: rest =>
    let t := rest.takeWhile (fun c => !(c == '{' || c == '}'))
    (match rest.drop t.length with
     | '}' :: _ => some ('{' :: (t ++ ['}']))
     | _ => firstBraceless rest)
  | _ :: rest => firstBraceless rest

/-! ## Intent classifier (`intent_classifier.py`) -/

inductive QType where
  | search : QType
  | question : QType
deriving DecidableEq, Repr

inductive CountHint where
  | exactMatch : CountHint
  | few : CountHint
  | many : CountHint
deriving DecidableEq, Repr

/-- `LIMIT_MAP = {"exact_match": 3, "few": 10, "many": 50}`. -/
def limitMap : CountHint → Nat
  | .exactMatch => 3
  | .few => 10
  | .many => 50

/-- The intent dictionary returned by `classify_intent`.  `refinedQuery` is
a JSON value because `_parse_llama_json` stores whatever truthy value the
model returned; the heuristic stores the query string.  `filters` is a
Python dict, modelled as key/value pairs in insertion order. -/
structure Intent where
  type : QType
  countHint : CountHint
  refinedQuery : Json
  filters : List (String × Json)
  confidence : ℚ
  limit : Nat

/-- The four `question_word_patterns` regex alternatives, flattened: each
is anchored at the start and followed by a word boundary. -/
def questionWords : List String :=
  ["was", "wer", "wie", "warum", "wann", "wo", "welche", "welcher", "welches",
   "erkläre", "erklär", "beschreibe", "fasse", "zusammenfassung", "nenne",
   "liste", "zeige",
   "can you", "could you", "what", "how", "why", "when", "where", "who", "which",
   "bitte", "kannst du", "könntest du", "sag mir", "zeig mir"]

def questionWordMatch (ql : List Char) : Bool :=
  questionWords.any (fun w => startsWithWord w ql)

/-- `bulk_patterns`: `^alle\b`, `^sämtliche\b`, `^jede\b`, `^all\b`,
`^every\b`, `^list(e)?\b`. -/
def bulkWords : List String :=
  ["alle", "sämtliche", "jede", "all", "every", "liste", "list"]

def bulkMatch (ql : List Char) : Bool :=
  bulkWords.any (fun w => startsWithWord w ql)

/-- `^(die|das|der)\s+(datei|dokument|rechnung|vertrag)\b`. -/
def articleNounMatch (ql : List Char) : Bool :=
  (["die", "das", "der"] : List String).any fun art =>
    art.data.isPrefixOf ql &&
      (let r := ql.drop art.data.length
       (match r with
        | c :: _ => isPySpace c
        | [] => false) &&
       ((["datei", "dokument", "rechnung", "vertrag"] : List String).any fun n =>
          startsWithWord n (r.dropWhile isPySpace)))

/-- `^(file|document)\s+\w+`. -/
def fileWordMatch (ql : List Char) : Bool :=
  (["file", "document"] : List String).any fun w =>
    w.data.isPrefixOf ql &&
      (let r := ql.drop w.data.length
       (match r with
        | c :: _ => isPySpace c
        | [] => false) &&
       (match r.dropWhile isPySpace with
        | c :: _ => isWordChar c
        | [] => false))

/-- `\.(pdf|txt|doc|xlsx?)$`. -/
def endsWithSpecificExt (ql : List Char) : Bool :=
  ([".pdf", ".txt", ".doc", ".xlsx", ".xls"] : List String).any fun e =>
    e.data.isSuffixOf ql

/-- The `specific_patterns` loop: any of the three patterns fires. -/
def specificMatch (ql : List Char) : Bool :=
  articleNounMatch ql || fileWordMatch ql || endsWithSpecificExt ql

/-- `re.search(r"\b(20\d{2})\b", query)` at one position: requires `20`,
two digits, a word boundary on both sides. -/
def yearAt (prev : Option Char) (l : List Char) : Option Nat :=
  match l with
  | '2' :: '0' :: c :: d :: rest =>
    if isDigitChar c && isDigitChar d &&
       (match prev with
        | none => true
        | some p => !(isWordChar p)) &&
       (match rest with
        | [] => true
        | e :: _ => !(isWordChar e))
    then some (2000 + 10 * (c.toNat - 48) + (d.toNat - 48))
    else none
  | _ => none

def findYearAux : Option Char → List Char → Option Nat
  | _, [] => none
  | prev, a :: rest =>
    match yearAt prev (a :: rest) with
    | some y => some y
    | none => findYearAux (some a) rest

/-- First match of `\b(20\d{2})\b` in the raw query, as an integer. -/
def findYear (l : List Char) : Option Nat := findYearAux none l

/-- Extension alternatives of `\.(pdf|txt|doc|docx|xlsx?|csv|json|md)\b`, in
the regex engine's backtracking order. -/
def extWords : List String :=
  ["pdf", "txt", "doc", "docx", "xlsx", "xls", "csv", "json", "md"]

def extAt (l : List Char) : Option String :=
  extWords.find? (fun e => startsWithWord e l)

/-- First match of `\.(pdf|txt|doc|docx|xlsx?|csv|json|md)\b` in the
lower-cased query. -/
def findFileType : List Char → Option String
  | [] => none
  | '.' :: rest =>
    (match extAt rest with
     | some e => some e
     | none => findFileType rest)
  | _ :: rest => findFileType rest

/-- `has_comma or has_period` and more than five words
(`_heuristic_classify`, PRIORITY 3). -/
def hasComplexShape (query : String) : Bool :=
  (query.data.contains ',' ||
    (query.data.contains '.' && !(listEndsWith (pyStrip query.data) '.'))) &&
  decide (5 < wordCount query.data)

/-- `_heuristic_classify` before the final `LIMIT_MAP` lookup.  In the
source the early `?` return performs the same `LIMIT_MAP` lookup that the
final line performs, so the lookup is factored into `heuristicClassify`. -/
def heuristicCore (query : String) : Intent :=
  let ql := pyStrip (query.data.map lowerChar)
  let base : Intent :=
    ⟨.search, .few, .jstr query, [], mkRat 7 10, 0⟩
  if listEndsWith (pyStrip query.data) '?' then
    { base with type := .question, confidence := mkRat 98 100 }
  else
    let r1 :=
      if questionWordMatch ql then
        { base with type := .question, confidence := mkRat 92 100 }
      else base
    let r2 :=
      if r1.type = .search ∧ hasComplexShape query then
        { r1 with type := .question, confidence := mkRat 91 100 }
      else r1
    let r3 :=
      if bulkMatch ql then
        { r2 with countHint := .many, confidence := max r2.confidence (mkRat 8 10) }
      else r2
    let r4 :=
      if specificMatch ql then
        { r3 with countHint := .exactMatch, confidence := max r3.confidence (mkRat 8 10) }
      else r3
    let f1 :=
      match findYear query.data with
      | some y => r4.filters ++ [("year", Json.jnum (y : ℚ))]
      | none => r4.filters
    let f2 :=
      match findFileType ql with
      | some t => f1 ++ [("file_type", Json.jstr t)]
      | none => f1
    { r4 with filters := f2 }

/-- `_heuristic_classify`: the core result with
`limit = LIMIT_MAP.get(count_hint, 10)`. -/
def heuristicClassify (query : String) : Intent :=
  let r := heuristicCore query
  { r with limit := limitMap r.countHint }

/-- The default returned when no JSON parses, plus the base values the
fields fall back to (`_parse_llama_json`'s initial `result` dict). -/
def llamaBase (originalQuery : String) : Intent :=
  ⟨.search, .few, .jstr originalQuery, [], mkRat 8 10, 0⟩

/-- `if parsed.get("type") in ["search", "question"]: result["type"] = ...`:
accept the value only when it is one of the two enum strings, else keep the
base value. -/
def pickType (b : QType) (v : Option Json) : QType :=
  match v with
  | some (.jstr "search") => .search
  | some (.jstr "question") => .question
  | _ => b

/-- `if parsed.get("count_hint") in ["exact_match", "few", "many"]: ...`. -/
def pickCount (b : CountHint) (v : Option Json) : CountHint :=
  match v with
  | some (.jstr "exact_match") => .exactMatch
  | some (.jstr "few") => .few
  | some (.jstr "many") => .many
  | _ => b

/-- `if parsed.get("refined_query"): result["refined_query"] = ...`:
accept any truthy value, else keep the base value. -/
def pickRefined (b : Json) (v : Option Json) : Json :=
  match v with
  | some v => if jtruthy v then v else b
  | none => b

/-- `_parse_llama_json(raw, original_query)`.  The regex `\{[^{}]*\}` can
only capture a flat segment, so the parsed object never contains an object
value; in particular `isinstance(parsed.get("filters"), dict)` is never
true and `filters` always stays `{}` on this path. -/
def parseLlamaJson (raw : String) (originalQuery : String) : Intent :=
  let r :=
    match (firstBraceless raw.data).bind jsonLoads with
    | none => llamaBase originalQuery
    | some obj =>
      let b := llamaBase originalQuery
      ⟨pickType b.type (jget obj "type"),
       pickCount b.countHint (jget obj "count_hint"),
       pickRefined b.refinedQuery (jget obj "refined_query"),
       b.filters, mkRat 9 10, 0⟩
  { r with limit := limitMap r.countHint }

/-- Modelled from the spec: "Extract the first balanced brace-delimited
JSON object from the raw text response" — the segment running from the
first `{` to its matching closing brace, tracking nesting depth.  Used
only to compare the spec's description of the extraction against the
code's regex `\{[^{}]*\}` (`firstBraceless`). -/
def takeBalanced (depth : Nat) : List Char → Option (List Char)
  | [] => none
  | '{' :: rest => (takeBalanced (depth + 1) rest).map (fun t => '{' :: t)
  | '}' :: rest =>
    if depth = 1 then some ['}']
    else (takeBalanced (depth - 1) rest).map (fun t => '}' :: t)
  | c :: rest => (takeBalanced depth rest).map (fun t => c :: t)

/-- Modelled from the spec: the first balanced brace-delimited segment. -/
def specFirstBalanced : List Char → Option (List Char)
  | [] => none
  | '{' :: rest => (takeBalanced 1 rest).map (fun t => '{' :: t)
  | _ :: rest => specFirstBalanced rest

/-- `classify_intent(query)`.  The Llama HTTP call of `_llama_classify` is
an oracle: `none` means the call raised or timed out (the `except` branch
returns the heuristic result), `some raw` means it returned response text
`raw`, which `_parse_llama_json` then parses. -/
def classifyIntent (query : String) (llamaReply : Option String) : Intent :=
  if pyStrip query.data = [] then
    ⟨.search, .few, .jstr query, [], mkRat 1 2, 10⟩
  else
    let h := heuristicClassify query
    if mkRat 9 10 ≤ h.confidence then h
    else
      match llamaReply with
      | some raw => parseLlamaJson raw query
      | none => h

/-! ## Answer synthesizer (`rag_service.py`) -/

/-- A document candidate as returned by `Database.search_similar`. -/
structure Doc where
  file_id : String
  file_path : String
  content : String
  similarity : ℚ
deriving DecidableEq, Repr

/-- One entry of `cited_sources`. -/
structure Cite where
  file_id : String
  file_path : String
  similarity : ℚ
deriving DecidableEq, Repr

/-- Return value of `_parse_llama_response`. -/
structure LlamaAnswer where
  answer : String
  cited_sources : List Cite
  confidence : String
  raw_response : String
deriving DecidableEq, Repr

/-- `RAGService._parse_llama_response(raw, documents)`.  The labelled
sections are located by substring search; a missing label leaves the
default (`answer = raw`, no citations, `"MITTEL"`).  The `try` block of the
source contains only total string operations, so the `except` branch is
unreachable and the function is total. -/
def parseLlamaResponse (raw : String) (documents : List Doc) : LlamaAnswer :=
  let rl := raw.data
  let cited : List Cite :=
    if hasInfix "RELEVANTE QUELLEN:".data rl then
      let sourcesLine :=
        pyStrip (upToFirst "\n".data
          (upToFirst "RELEVANTE QUELLEN:".data
            ((afterFirst "RELEVANTE QUELLEN:".data rl).getD [])))
      if !(sourcesLine.map lowerChar == "keine".data) && !(sourcesLine == "[]".data) then
        (documents.filter (fun d =>
            hasInfix d.file_id.data sourcesLine ||
            hasInfix (removeTxt d.file_id.data) sourcesLine)).map
          (fun d => ⟨d.file_id, d.file_path, d.similarity⟩)
      else []
    else []
  let conf : String :=
    if hasInfix "KONFIDENZ:".data rl then
      let confLine :=
        (pyStrip (upToFirst "\n".data
          (upToFirst "KONFIDENZ:".data
            ((afterFirst "KONFIDENZ:".data rl).getD [])))).map upperChar
      if confLine == "HOCH".data || confLine == "MITTEL".data ||
         confLine == "NIEDRIG".data then
        String.mk confLine
      else "MITTEL"
    else "MITTEL"
  let ans : String :=
    if hasInfix "ANTWORT:".data rl then
      let part :=
        pyStrip (upToFirst "ANTWORT:".data
          ((afterFirst "ANTWORT:".data rl).getD []))
      if hasInfix "---".data part then
        String.mk (pyStrip (upToFirst "---".data part))
      else String.mk part
    else raw
  ⟨ans, cited, conf, raw⟩

/-- True when the reply contains none of the three labelled sections,
i.e. the parse leaves every default in place. -/
def noLabels (raw : String) : Bool :=
  !(hasInfix "RELEVANTE QUELLEN:".data raw.data) &&
  !(hasInfix "KONFIDENZ:".data raw.data) &&
  !(hasInfix "ANTWORT:".data raw.data)

/-- `RAGService.get_llama_response`: the generation HTTP call is the oracle
`genReply` (`none` = the request raised / timed out / had no `response`
field, in which case the `except` branch re-raises); on success the raw
text is parsed by `_parse_llama_response`, which never raises. -/
def getLlamaResponse (genReply : Option String) (documents : List Doc) :
    Except String LlamaAnswer :=
  match genReply with
  | none => .error "Llama generation failed"
  | some raw => .ok (parseLlamaResponse raw documents)

/-! ## Query router (`unified_query`) and store (`search_similar`) -/

/-- A row of the `file_embeddings` table, with its cosine distance to the
query embedding (the store is ordered by `embedding <=> query`). -/
structure StoreRow where
  file_id : String
  file_path : String
  content : String
  distance : ℚ
deriving DecidableEq, Repr

def insertByDist (r : StoreRow) : List StoreRow → List StoreRow
  | [] => [r]
  | x :: xs =>
    if r.distance < x.distance then r :: x :: xs else x :: insertByDist r xs

/-- Stable sort by ascending distance (`ORDER BY embedding <=> %s`). -/
def sortByDist : List StoreRow → List StoreRow
  | [] => []
  | x :: xs => insertByDist x (sortByDist xs)

/-- `Database.search_similar`: keep rows whose `file_path` is under
`/mnt/data/` and not in a `.trash` directory, order by ascending distance,
take `limit`, and report `similarity = 1 - distance`. -/
def searchSimilar (rows : List StoreRow) (limit : Nat) : List Doc :=
  ((sortByDist (rows.filter (fun r =>
      "/mnt/data/".data.isPrefixOf r.file_path.data &&
      !(hasInfix "/.trash/".data r.file_path.data)))).take limit).map
    (fun r => ⟨r.file_id, r.file_path, r.content, 1 - r.distance⟩)

/-- The JSON response of `unified_query` (answer or search branch).  The
`model` key of the answer branch is a configuration constant and is
omitted.  `allCandidates` is `none` for the canned zero-candidate answer,
which does not carry the `all_candidates` key. -/
inductive UResp where
  | answerResp (intent : Intent) (answer : String) (sources : List Cite)
      (confidence : String) (allCandidates : Option Nat) (query : String) : UResp
  | searchResp (intent : Intent) (files : List Doc) (totalFound : Nat)
      (query : String) : UResp

/-- The outbound service calls `unified_query` can make, in order. -/
inductive SvcCall where
  | embed : SvcCall
  | generate : SvcCall
deriving DecidableEq, Repr

/-- `RAGService.unified_query(query)`.  Oracles: `modelLoaded` for
`self.model_loaded`; `classifierReply` for the classifier model call inside
`classify_intent`; `embedOk` for the embedding call (its vector only enters
through the per-row distances of `store`); `store` for the vector store;
`genReply` for the generation call.  Returns the result (or the raised
error) together with the list of model service calls performed. -/
def unifiedQuery (modelLoaded : Bool) (query : String)
    (classifierReply : Option String) (embedOk : Bool)
    (store : List StoreRow) (genReply : Option String) :
    Except String UResp × List SvcCall :=
  if !modelLoaded then (.error "Ollama not loaded", [])
  else
    let intent := classifyIntent query classifierReply
    if !embedOk then (.error "Ollama embedding failed", [.embed])
    else
      let docs := searchSimilar store intent.limit
      if intent.type = .question then
        if docs.isEmpty then
          (.ok (.answerResp intent "Keine relevanten Dokumente gefunden."
              [] "NIEDRIG" none query), [.embed])
        else
          match genReply with
          | none => (.error "Llama generation failed", [.embed, .generate])
          | some raw =>
            let lr := parseLlamaResponse raw docs
            (.ok (.answerResp intent lr.answer lr.cited_sources lr.confidence
                (some docs.length) query), [.embed, .generate])
      else
        let files := docs.map (fun d => { d with content := String.mk (d.content.data.take 500) })
        (.ok (.searchResp intent files files.length query), [.embed])

/-! ## Redis job worker (`process_redis_job`) -/

/-- Status record value written under `ai:results:<job_id>`. -/
inductive JobStatus where
  | processing : JobStatus
  | completed (result : UResp) (completedAt : String) : JobStatus
  | failed (error : String) : JobStatus

/-- Observable actions of `process_redis_job`, in program order:
`writeStatus` is a `SETEX` on the status key (`ok = false` means the write
raised, which aborts the function), `callRouter` is the `unified_query`
invocation, `ack` is the `XACK` of the stream entry. -/
inductive REvent where
  | writeStatus (jobId : String) (st : JobStatus) (ok : Bool) : REvent
  | callRouter : REvent
  | ack : REvent

/-- The fields of a dequeued stream entry (`data.get("job_id")`,
`data.get("query", "")`). -/
structure JobData where
  jobId : Option String
  query : String

/-- The terminal status computed from the router outcome: `completed` with
the result and the `completed_at` timestamp, or `failed` with `str(e)`. -/
def terminalOf (outcome : Except String UResp) (ts : String) : JobStatus :=
  match outcome with
  | .ok r => .completed r ts
  | .error e => .failed e

/-- `RAGService.process_redis_job(entry_id, data)` as its trace of
observable actions.  `outcome` is what `unified_query` did, `ts` the
timestamp taken on success, `w1`/`w2` whether the two status `SETEX` calls
succeed (a failed write raises out of the function, so nothing after it
happens; the worker loop catches the exception and the entry stays
unacknowledged).  Python's `if not job_id` treats both a missing and an
empty `job_id` as absent. -/
def processRedisJob (data : JobData) (outcome : Except String UResp)
    (ts : String) (w1 w2 : Bool) : List REvent :=
  match data.jobId with
  | none => [.ack]
  | some jid =>
    if jid = "" then [.ack]
    else if w1 = false then [.writeStatus jid .processing false]
    else
      [.writeStatus jid .processing true, .callRouter] ++
        (if w2 then [.writeStatus jid (terminalOf outcome ts) true, .ack]
         else [.writeStatus jid (terminalOf outcome ts) false])

/-- The TTL-backed status store, newest binding first. -/
abbrev StatusStore := List (String × JobStatus)

/-- `get(key)` against the status store (`get_status` lookups). -/
def getStatus (store : StatusStore) (jobId : String) : Option JobStatus :=
  (store.find? (fun p => p.1 == jobId)).map (fun p => p.2)

/-- Effect of one trace event on the status store: only a successful
status write changes it (overwrite by key). -/
def applyEvent (store : StatusStore) : REvent → StatusStore
  | .writeStatus j st true => (j, st) :: store
  | _ => store

def applyTrace (store : StatusStore) (tr : List REvent) : StatusStore :=
  tr.foldl applyEvent store

/-! ## Helper lemmas -/

lemma all_space_of_pyStrip_nil {l : List Char} (h : pyStrip l = []) :
    ∀ c ∈ l, isPySpace c := by
  intro c hc
  unfold pyStrip rstrip lstrip at h
  rw [List.reverse_eq_nil_iff, List.dropWhile_eq_nil_iff] at h
  have hsplit := List.takeWhile_append_dropWhile (p := isPySpace) (l := l)
  rw [← hsplit] at hc
  rcases List.mem_append.mp hc with h1 | h2
  · exact List.mem_takeWhile_imp h1
  · exact h c (List.mem_reverse.mpr h2)

lemma lowerChar_space {c : Char} (h : isPySpace c = true) : lowerChar c = c := by
  unfold lowerChar
  rw [if_neg]
  intro hc
  simp only [isPySpace, Bool.or_eq_true, decide_eq_true_eq] at h
  omega

lemma map_lower_of_all_space {l : List Char} (h : ∀ c ∈ l, isPySpace c) :
    l.map lowerChar = l := by
  conv_rhs => rw [← List.map_id l]
  exact List.map_congr_left (fun c hc => lowerChar_space (h c hc))

lemma strip_ne_nil_of_strip_lower_ne_nil {l : List Char}
    (h : pyStrip (l.map lowerChar) ≠ []) : pyStrip l ≠ [] := by
  intro he
  exact h (by rw [map_lower_of_all_space (all_space_of_pyStrip_nil he)]; exact he)

lemma bulkMatch_ne_nil {l : List Char} (h : bulkMatch l = true) : l ≠ [] := by
  intro he
  rw [he] at h
  exact absurd h (by decide)

lemma heuristicClassify_limit (q : String) :
    (heuristicClassify q).limit = limitMap (heuristicClassify q).countHint := rfl

lemma parseLlamaJson_limit (raw q : String) :
    (parseLlamaJson raw q).limit = limitMap (parseLlamaJson raw q).countHint := rfl

lemma limitMap_mem (ch : CountHint) :
    (limitMap ch = 3 ∨ limitMap ch = 10 ∨ limitMap ch = 50) ∧ 0 < limitMap ch := by
  cases ch <;> decide

/-! ## Claims -/

/-- **C2.**  For every query string that, after trimming whitespace, ends
in `?`, `classify_intent` returns type `question` with confidence at least
0.98, regardless of the rest of the query and regardless of the model
oracle: the `query.strip().endswith("?")` branch of `_heuristic_classify`
fires with confidence 0.98, which clears the 0.9 threshold in
`classify_intent`, so the heuristic result is returned unchanged. -/
theorem claim_C2 (q : String) (r : Option String)
    (h : listEndsWith (pyStrip q.data) '?' = true) :
    (classifyIntent q r).type = QType.question ∧
      mkRat 98 100 ≤ (classifyIntent q r).confidence := by
  have hne : ¬ pyStrip q.data = [] := by
    intro he
    rw [he] at h
    exact absurd h (by decide)
  have hh : heuristicClassify q =
      { type := .question, countHint := .few, refinedQuery := .jstr q,
        filters := [], confidence := mkRat 98 100, limit := 10 } := by
    unfold heuristicClassify heuristicCore
    simp only [h, if_true]
    rfl
  unfold classifyIntent
  rw [if_neg hne]
  show (if mkRat 9 10 ≤ (heuristicClassify q).confidence then heuristicClassify q
    else match r with
      | some raw => parseLlamaJson raw q
      | none => heuristicClassify q).type = QType.question ∧ _
  rw [hh, if_pos (by decide : mkRat 9 10 ≤ mkRat 98 100)]
  exact ⟨rfl, le_refl _⟩

/-- Witness for C2 at the concrete query `"Was kostet der Server?"`. -/
theorem claim_C2_witness :
    listEndsWith (pyStrip ("Was kostet der Server?" : String).data) '?' = true ∧
    (classifyIntent "Was kostet der Server?" none).type = QType.question ∧
      mkRat 98 100 ≤ (classifyIntent "Was kostet der Server?" none).confidence :=
  ⟨by decide, claim_C2 "Was kostet der Server?" none (by decide)⟩

/-- **C4.**  On every path of `classify_intent` (empty-query default,
heuristic early `?` return, heuristic final return, model parse) the
returned `limit` equals `LIMIT_MAP[count_hint]`, hence is one of
{3, 10, 50} and positive. -/
theorem claim_C4 (q : String) (r : Option String) :
    (classifyIntent q r).limit = limitMap (classifyIntent q r).countHint ∧
    ((classifyIntent q r).limit = 3 ∨ (classifyIntent q r).limit = 10 ∨
      (classifyIntent q r).limit = 50) ∧
    0 < (classifyIntent q r).limit := by
  have key : (classifyIntent q r).limit = limitMap (classifyIntent q r).countHint := by
    by_cases he : pyStrip q.data = []
    · have hcl : classifyIntent q r = ⟨.search, .few, .jstr q, [], mkRat 1 2, 10⟩ := by
        unfold classifyIntent
        rw [if_pos he]
      rw [hcl]
      rfl
    · have hcl : classifyIntent q r =
          (if mkRat 9 10 ≤ (heuristicClassify q).confidence then heuristicClassify q
           else match r with
             | some raw => parseLlamaJson raw q
             | none => heuristicClassify q) := by
        unfold classifyIntent
        rw [if_neg he]
      rw [hcl]
      split
      · exact heuristicClassify_limit q
      · cases r with
        | some raw => exact parseLlamaJson_limit raw q
        | none => exact heuristicClassify_limit q
  rw [key]
  exact ⟨rfl, limitMap_mem _⟩

/-- **C6.**  `_parse_llama_response` builds `cited_sources` by filtering
the `documents` list it was given (in list order) and projecting each
matching document to its id/path/similarity, so the citation list is
always an ordered sublist of the projected candidate list: no invented
citations, and candidate order — not text order — is preserved. -/
theorem claim_C6 (raw : String) (documents : List Doc) :
    List.Sublist (parseLlamaResponse raw documents).cited_sources
      (documents.map (fun d => Cite.mk d.file_id d.file_path d.similarity)) := by
  unfold parseLlamaResponse
  dsimp only
  split
  · split
    · exact List.Sublist.map _ (List.filter_sublist documents)
    · exact List.nil_sublist _
  · exact List.nil_sublist _

/-- **C7.**  `get_llama_response` raises exactly when the generation call
itself fails (`genReply = none`); on success it always returns the result
of `_parse_llama_response`, which is total — and when the reply carries
none of the three labelled sections, that result is the entire raw reply
as the answer with an empty citation list and `MITTEL` confidence.  (In
the source, the `except` inside `_parse_llama_response` guards only total
string operations, so a format violation can never escape as an error.) -/
theorem claim_C7 (genReply : Option String) (documents : List Doc) :
    ((∃ e, getLlamaResponse genReply documents = .error e) ↔ genReply = none) ∧
    (∀ raw, genReply = some raw →
      getLlamaResponse genReply documents = .ok (parseLlamaResponse raw documents) ∧
      (noLabels raw = true →
        parseLlamaResponse raw documents = ⟨raw, [], "MITTEL", raw⟩)) := by
  constructor
  · cases genReply with
    | none => exact ⟨fun _ => rfl, fun _ => ⟨_, rfl⟩⟩
    | some raw =>
      constructor
      · rintro ⟨e, he⟩
        exact absurd he (by simp [getLlamaResponse])
      · intro hcon
        cases hcon
  · intro raw hr
    subst hr
    refine ⟨rfl, fun hnl => ?_⟩
    unfold noLabels at hnl
    simp only [Bool.and_eq_true, Bool.not_eq_true'] at hnl
    obtain ⟨⟨hA, hB⟩, hC⟩ := hnl
    unfold parseLlamaResponse
    simp [hA, hB, hC]

/-- Witness for C7: a failing generation call raises; a label-free reply
degrades to the raw text with no citations and `MITTEL` confidence. -/
theorem claim_C7_witness :
    getLlamaResponse (some "Hallo Welt") [] = .ok (parseLlamaResponse "Hallo Welt" []) ∧
    parseLlamaResponse "Hallo Welt" [] = ⟨"Hallo Welt", [], "MITTEL", "Hallo Welt"⟩ ∧
    (∃ e, getLlamaResponse (none : Option String) [] = .error e) :=
  ⟨((claim_C7 (some "Hallo Welt") []).2 "Hallo Welt" rfl).1,
   ((claim_C7 (some "Hallo Welt") []).2 "Hallo Welt" rfl).2 (by decide),
   (claim_C7 none []).1.mpr rfl⟩

/-- **C1.**  For a dequeued entry with a (non-empty) `job_id`,
`process_redis_job` writes the `processing` status record before invoking
`unified_query`, then writes the terminal status (`completed` with the
routed result and the completion timestamp on success, `failed` with the
error text on an exception), and acknowledges the entry last — and only
in traces in which both status writes succeeded does the `XACK` occur. -/
theorem claim_C1 (jid q ts : String) (outcome : Except String UResp)
    (h : jid ≠ "") :
    processRedisJob ⟨some jid, q⟩ outcome ts true true =
      [REvent.writeStatus jid .processing true, .callRouter,
       .writeStatus jid (terminalOf outcome ts) true, .ack] ∧
    (∀ r, outcome = .ok r → terminalOf outcome ts = .completed r ts) ∧
    (∀ e, outcome = .error e → terminalOf outcome ts = .failed e) ∧
    (∀ w1 w2 : Bool,
      REvent.ack ∈ processRedisJob ⟨some jid, q⟩ outcome ts w1 w2 →
      w1 = true ∧ w2 = true) := by
  refine ⟨?_, ?_, ?_, ?_⟩
  · simp [processRedisJob, h]
  · intro r hr
    rw [hr]
    rfl
  · intro e he
    rw [he]
    rfl
  · intro w1 w2 hm
    cases w1 <;> cases w2 <;> simp_all [processRedisJob, h]

/-- Witness for C1 at a concrete failing job. -/
theorem claim_C1_witness :
    ("j1" : String) ≠ "" ∧
    processRedisJob ⟨some "j1", "hallo"⟩ (Except.error "boom") "2024-01-01" true true =
      [REvent.writeStatus "j1" .processing true, .callRouter,
       .writeStatus "j1" (terminalOf (Except.error "boom") "2024-01-01") true, .ack] :=
  ⟨by decide, (claim_C1 "j1" "hallo" "2024-01-01" (Except.error "boom") (by decide)).1⟩

/-- **C10.**  A dequeued entry whose fields lack a `job_id` (or carry the
falsy empty string) is acknowledged immediately and discarded: its trace
is just the `XACK`, contains no status write, and leaves the status store
— hence every `get_status` lookup — unchanged. -/
theorem claim_C10 (data : JobData) (outcome : Except String UResp)
    (ts : String) (w1 w2 : Bool) (store : StatusStore)
    (h : data.jobId = none ∨ data.jobId = some "") :
    processRedisJob data outcome ts w1 w2 = [REvent.ack] ∧
    (∀ e ∈ processRedisJob data outcome ts w1 w2,
      ∀ j st ok, e ≠ REvent.writeStatus j st ok) ∧
    applyTrace store (processRedisJob data outcome ts w1 w2) = store ∧
    (∀ j, getStatus (applyTrace store (processRedisJob data outcome ts w1 w2)) j =
      getStatus store j) := by
  obtain ⟨jo, qq⟩ := data
  have h' : jo = none ∨ jo = some "" := h
  have htr : processRedisJob ⟨jo, qq⟩ outcome ts w1 w2 = [REvent.ack] := by
    rcases h' with h' | h' <;> rw [h'] <;> simp [processRedisJob]
  refine ⟨htr, ?_, ?_, ?_⟩
  · rw [htr]
    intro e he j st ok
    simp only [List.mem_singleton] at he
    subst he
    simp
  · rw [htr]
    rfl
  · rw [htr]
    intro j
    rfl

/-- Witness for C10: an entry with no `job_id` only gets acknowledged. -/
theorem claim_C10_witness :
    processRedisJob ⟨none, "was"⟩ (Except.error "e") "t" true true = [REvent.ack] ∧
    applyTrace [] (processRedisJob ⟨none, "was"⟩ (Except.error "e") "t" true true) = [] :=
  ⟨(claim_C10 ⟨none, "was"⟩ (Except.error "e") "t" true true [] (Or.inl rfl)).1,
   (claim_C10 ⟨none, "was"⟩ (Except.error "e") "t" true true [] (Or.inl rfl)).2.2.1⟩

/-- **C8.**  When the classified intent has type `question` and retrieval
returns zero candidates, `unified_query` returns the canned
"Keine relevanten Dokumente gefunden." answer with confidence `NIEDRIG`
and an empty sources list, and its call trace contains no generation
call. -/
theorem claim_C8 (query : String) (reply : Option String)
    (store : List StoreRow) (genReply : Option String)
    (hq : (classifyIntent query reply).type = QType.question)
    (hd : searchSimilar store (classifyIntent query reply).limit = []) :
    unifiedQuery true query reply true store genReply =
      (.ok (.answerResp (classifyIntent query reply)
          "Keine relevanten Dokumente gefunden." [] "NIEDRIG" none query),
        [SvcCall.embed]) ∧
    SvcCall.generate ∉ (unifiedQuery true query reply true store genReply).2 := by
  have key : unifiedQuery true query reply true store genReply =
      (.ok (.answerResp (classifyIntent query reply)
          "Keine relevanten Dokumente gefunden." [] "NIEDRIG" none query),
        [SvcCall.embed]) := by
    simp [unifiedQuery, hq, hd]
  refine ⟨key, ?_⟩
  rw [key]
  simp

/-- Witness for C8: the spec's scenario query with an empty store. -/
theorem claim_C8_witness :
    (classifyIntent "Was kostet der Server?" none).type = QType.question ∧
    unifiedQuery true "Was kostet der Server?" none true [] (some "egal") =
      (.ok (.answerResp (classifyIntent "Was kostet der Server?" none)
          "Keine relevanten Dokumente gefunden." [] "NIEDRIG" none
          "Was kostet der Server?"),
        [SvcCall.embed]) :=
  ⟨by decide,
   (claim_C8 "Was kostet der Server?" none [] (some "egal") (by decide) rfl).1⟩

/-- **C9.**  When the classified intent has type `search`, `unified_query`
returns the retrieved candidates mapped through a 500-character content
truncation (`doc["content"][:500]`): at most `limit` files come back
(`search_similar` applies `LIMIT limit`), every returned content is the
500-character prefix of the stored content — exactly 500 characters
whenever the stored content is at least that long — and the full content
is never returned for longer documents. -/
theorem claim_C9 (query : String) (reply : Option String)
    (store : List StoreRow) (genReply : Option String)
    (hs : (classifyIntent query reply).type ≠ QType.question) :
    (unifiedQuery true query reply true store genReply).1 =
      .ok (.searchResp (classifyIntent query reply)
        ((searchSimilar store (classifyIntent query reply).limit).map
          (fun d => { d with content := String.mk (d.content.data.take 500) }))
        ((searchSimilar store (classifyIntent query reply).limit).map
          (fun d => { d with content := String.mk (d.content.data.take 500) })).length
        query) ∧
    ((searchSimilar store (classifyIntent query reply).limit).map
      (fun d => { d with content := String.mk (d.content.data.take 500) })).length ≤
      (classifyIntent query reply).limit ∧
    (∀ f ∈ (searchSimilar store (classifyIntent query reply).limit).map
        (fun d => { d with content := String.mk (d.content.data.take 500) }),
      f.content.data.length ≤ 500) ∧
    (∀ d ∈ searchSimilar store (classifyIntent query reply).limit,
      (String.mk (d.content.data.take 500)).data.length =
        min 500 d.content.data.length) := by
  refine ⟨?_, ?_, ?_, ?_⟩
  · simp [unifiedQuery, hs]
  · rw [List.length_map]
    unfold searchSimilar
    rw [List.length_map, List.length_take]
    exact min_le_left _ _
  · intro f hf
    obtain ⟨d, _, rfl⟩ := List.mem_map.mp hf
    show (d.content.data.take 500).length ≤ 500
    rw [List.length_take]
    exact min_le_left _ _
  · intro d _
    exact List.length_take _ _

/-- Witness for C9 at a concrete search-mode query and store. -/
theorem claim_C9_witness :
    (classifyIntent "Rechnung Mueller" none).type ≠ QType.question ∧
    (unifiedQuery true "Rechnung Mueller" none true
        [⟨"a", "/mnt/data/a", "hello", mkRat 1 4⟩] none).1 =
      .ok (.searchResp (classifyIntent "Rechnung Mueller" none)
        ((searchSimilar [⟨"a", "/mnt/data/a", "hello", mkRat 1 4⟩]
            (classifyIntent "Rechnung Mueller" none).limit).map
          (fun d => { d with content := String.mk (d.content.data.take 500) }))
        ((searchSimilar [⟨"a", "/mnt/data/a", "hello", mkRat 1 4⟩]
            (classifyIntent "Rechnung Mueller" none).limit).map
          (fun d => { d with content := String.mk (d.content.data.take 500) })).length
        "Rechnung Mueller") :=
  ⟨by decide,
   (claim_C9 "Rechnung Mueller" none [⟨"a", "/mnt/data/a", "hello", mkRat 1 4⟩] none
      (by decide)).1⟩

/-- **C3, counterexample.**  `"alle Rechnungen?"` matches the bulk pattern
`^alle\b`, yet the classifier returns `count_hint = few` and `limit = 10`:
the trailing-`?` branch of `_heuristic_classify` returns early, before the
bulk-pattern loop runs, and its confidence 0.98 makes `classify_intent`
return that result unchanged.  This refutes the claim that every
bulk-pattern query yields `count_hint = many` and `limit = 50`. -/
theorem claim_C3_counterexample :
    bulkMatch (pyStrip (("alle Rechnungen?" : String).data.map lowerChar)) = true ∧
    (classifyIntent "alle Rechnungen?" none).countHint ≠ CountHint.many ∧
    (classifyIntent "alle Rechnungen?" none).countHint = CountHint.few ∧
    (classifyIntent "alle Rechnungen?" none).limit = 10 := by
  refine ⟨by decide, by decide, by decide, by decide⟩

/-- **C3, amended.**  For every query that (after stripping) does not end
in `?`, matches a bulk-quantifier pattern, and does not match a
narrow-reference (`specific_patterns`) pattern — which runs after the bulk
loop and overwrites its `count_hint` — the heuristic classification has
`count_hint = many` and `limit = 50`; and this heuristic intent is what
`classify_intent` returns whenever the heuristic confidence reaches the
0.9 threshold or the model-classification call fails.  (When the model
call succeeds, `_parse_llama_json` may legitimately override
`count_hint`; see C5.) -/
theorem claim_C3_amended (q : String)
    (h1 : listEndsWith (pyStrip q.data) '?' = false)
    (h2 : bulkMatch (pyStrip (q.data.map lowerChar)) = true)
    (h3 : specificMatch (pyStrip (q.data.map lowerChar)) = false) :
    (heuristicClassify q).countHint = CountHint.many ∧
    (heuristicClassify q).limit = 50 ∧
    ∀ r : Option String,
      (mkRat 9 10 ≤ (heuristicClassify q).confidence ∨ r = none) →
      (classifyIntent q r).countHint = CountHint.many ∧
        (classifyIntent q r).limit = 50 := by
  have hcore : (heuristicCore q).countHint = CountHint.many := by
    unfold heuristicCore
    simp only [h1, h2, h3, Bool.false_eq_true, if_false, if_true]
  have hh1 : (heuristicClassify q).countHint = CountHint.many := hcore
  have hh2 : (heuristicClassify q).limit = 50 := by
    have : (heuristicClassify q).limit = limitMap (heuristicCore q).countHint := rfl
    rw [this, hcore]
    rfl
  refine ⟨hh1, hh2, fun r hr => ?_⟩
  have hne : ¬ pyStrip q.data = [] :=
    strip_ne_nil_of_strip_lower_ne_nil (bulkMatch_ne_nil h2)
  have hcl : classifyIntent q r = heuristicClassify q := by
    simp only [classifyIntent]
    rw [if_neg hne]
    rcases hr with hconf | hnone
    · rw [if_pos hconf]
    · subst hnone
      split
      · rfl
      · rfl
  rw [hcl]
  exact ⟨hh1, hh2⟩

/-- Witness for the amended C3 at the spec's scenario query
`"alle Rechnungen 2023"`, with the model call failing. -/
theorem claim_C3_amended_witness :
    listEndsWith (pyStrip ("alle Rechnungen 2023" : String).data) '?' = false ∧
    bulkMatch (pyStrip (("alle Rechnungen 2023" : String).data.map lowerChar)) = true ∧
    specificMatch (pyStrip (("alle Rechnungen 2023" : String).data.map lowerChar)) = false ∧
    (classifyIntent "alle Rechnungen 2023" none).countHint = CountHint.many ∧
    (classifyIntent "alle Rechnungen 2023" none).limit = 50 :=
  ⟨by decide, by decide, by decide,
   ((claim_C3_amended "alle Rechnungen 2023" (by decide) (by decide) (by decide)).2.2
      none (Or.inr rfl)).1,
   ((claim_C3_amended "alle Rechnungen 2023" (by decide) (by decide) (by decide)).2.2
      none (Or.inr rfl)).2⟩

lemma pickType_default (b : QType) (v : Option Json)
    (h1 : v ≠ some (.jstr "search")) (h2 : v ≠ some (.jstr "question")) :
    pickType b v = b := by
  unfold pickType
  split
  · exact absurd rfl h1
  · exact absurd rfl h2
  · rfl

lemma pickCount_default (b : CountHint) (v : Option Json)
    (h1 : v ≠ some (.jstr "exact_match")) (h2 : v ≠ some (.jstr "few"))
    (h3 : v ≠ some (.jstr "many")) :
    pickCount b v = b := by
  unfold pickCount
  split
  · exact absurd rfl h1
  · exact absurd rfl h2
  · exact absurd rfl h3
  · rfl

lemma pickRefined_none (b : Json) : pickRefined b none = b := rfl

lemma pickRefined_falsy (b v : Json) (h : jtruthy v = false) :
    pickRefined b (some v) = b := by
  show (if jtruthy v = true then v else b) = b
  rw [h]
  rfl

/-- **C5, counterexample.**  For the model reply
`{"type":"question","filters":{"year":2023}}` on the query
`"alle Rechnungen"` (heuristic `count_hint = many` at confidence 0.8, so
the model path runs): the first *balanced* brace-delimited object is the
whole reply, but the code's regex `\{[^{}]*\}` extracts the inner
`{"year":2023}` instead; the extracted object has no valid field, and the
result falls back to the parser's fixed defaults — `type = search`,
`count_hint = few` — not to the heuristic's `count_hint = many`; yet the
classification still reports confidence 0.9.  This refutes both the
"first balanced JSON object" description and the "retains the
corresponding heuristic value" description. -/
theorem claim_C5_counterexample :
    specFirstBalanced ("\x7b\"type\":\"question\",\"filters\":\x7b\"year\":2023\x7d\x7d" : String).data =
      some ("\x7b\"type\":\"question\",\"filters\":\x7b\"year\":2023\x7d\x7d" : String).data ∧
    firstBraceless ("\x7b\"type\":\"question\",\"filters\":\x7b\"year\":2023\x7d\x7d" : String).data =
      some ("\x7b\"year\":2023\x7d" : String).data ∧
    firstBraceless ("\x7b\"type\":\"question\",\"filters\":\x7b\"year\":2023\x7d\x7d" : String).data ≠
      specFirstBalanced ("\x7b\"type\":\"question\",\"filters\":\x7b\"year\":2023\x7d\x7d" : String).data ∧
    (heuristicClassify "alle Rechnungen").countHint = CountHint.many ∧
    ¬ (mkRat 9 10 ≤ (heuristicClassify "alle Rechnungen").confidence) ∧
    (classifyIntent "alle Rechnungen"
        (some "\x7b\"type\":\"question\",\"filters\":\x7b\"year\":2023\x7d\x7d")).type = QType.search ∧
    (classifyIntent "alle Rechnungen"
        (some "\x7b\"type\":\"question\",\"filters\":\x7b\"year\":2023\x7d\x7d")).countHint =
      CountHint.few ∧
    (classifyIntent "alle Rechnungen"
        (some "\x7b\"type\":\"question\",\"filters\":\x7b\"year\":2023\x7d\x7d")).confidence =
      mkRat 9 10 :=
  ⟨by decide, by decide, by decide, by decide, by decide, by decide, by decide, by decide⟩

/-- **C5, amended.**  When the model path runs, `_parse_llama_json`
extracts the first brace-delimited segment of the raw reply that contains
no nested braces (the regex `\{[^{}]*\}`, not the first balanced object);
if no such segment parses as JSON, the whole result is the parser's fixed
default (`search`, `few`, the original query, empty filters) at
confidence 0.8; if one does, each field is validated independently —
`type` and `count_hint` against their enums, `refined_query` for
truthiness — and a missing or invalid field falls back to that same fixed
default (not the heuristic's value), `filters` always stays empty (a flat
segment can never contain an object), confidence is exactly 0.9, and
`limit` is recomputed from the accepted `count_hint`.  Confidence 0.9 is
reported exactly when a segment was extracted and parsed, regardless of
how many fields were accepted. -/
theorem claim_C5_amended (raw q : String) :
    ((firstBraceless raw.data).bind jsonLoads = none →
      parseLlamaJson raw q = ⟨.search, .few, .jstr q, [], mkRat 8 10, 10⟩) ∧
    (∀ obj, (firstBraceless raw.data).bind jsonLoads = some obj →
      parseLlamaJson raw q =
        ⟨pickType .search (jget obj "type"),
         pickCount .few (jget obj "count_hint"),
         pickRefined (.jstr q) (jget obj "refined_query"),
         [], mkRat 9 10,
         limitMap (pickCount .few (jget obj "count_hint"))⟩) ∧
    ((parseLlamaJson raw q).confidence = mkRat 9 10 ↔
      ((firstBraceless raw.data).bind jsonLoads).isSome = true) ∧
    (∀ b v, v ≠ some (.jstr "search") → v ≠ some (.jstr "question") →
      pickType b v = b) ∧
    (∀ b v, v ≠ some (.jstr "exact_match") → v ≠ some (.jstr "few") →
      v ≠ some (.jstr "many") → pickCount b v = b) ∧
    (∀ b, pickRefined b none = b) ∧
    (∀ b v, jtruthy v = false → pickRefined b (some v) = b) := by
  have hnone : (firstBraceless raw.data).bind jsonLoads = none →
      parseLlamaJson raw q = ⟨.search, .few, .jstr q, [], mkRat 8 10, 10⟩ := by
    intro h
    unfold parseLlamaJson
    rw [h]
    rfl
  have hsome : ∀ obj, (firstBraceless raw.data).bind jsonLoads = some obj →
      parseLlamaJson raw q =
        ⟨pickType .search (jget obj "type"),
         pickCount .few (jget obj "count_hint"),
         pickRefined (.jstr q) (jget obj "refined_query"),
         [], mkRat 9 10,
         limitMap (pickCount .few (jget obj "count_hint"))⟩ := by
    intro obj h
    unfold parseLlamaJson
    rw [h]
    rfl
  refine ⟨hnone, hsome, ?_, fun b v => pickType_default b v,
    fun b v => pickCount_default b v, fun b => pickRefined_none b,
    fun b v => pickRefined_falsy b v⟩
  cases hj : (firstBraceless raw.data).bind jsonLoads with
  | none =>
    rw [hnone hj]
    constructor
    · intro hc
      have hc' : (mkRat 8 10 : ℚ) = mkRat 9 10 := hc
      exact absurd hc' (by decide)
    · intro hc
      exact absurd hc (by simp)
  | some obj =>
    rw [hsome obj hj]
    simp

/-- Witness for the amended C5 at the counterexample's input: the inner
segment parses, so confidence is exactly 0.9. -/
theorem claim_C5_amended_witness :
    (parseLlamaJson "\x7b\"type\":\"question\",\"filters\":\x7b\"year\":2023\x7d\x7d"
      "alle Rechnungen").confidence = mkRat 9 10 :=
  ((claim_C5_amended "\x7b\"type\":\"question\",\"filters\":\x7b\"year\":2023\x7d\x7d"
      "alle Rechnungen").2.2.1).mpr (by decide)

end NasAgent
